import Mathlib

/-!
Shallow embedding of the `VideoTrimmer` pipeline of OTrimmer
(`src/src/otrimmer.py`, class `VideoTrimmer`, lines 272-645; the older
`src/trimmer.py` contains a line-identical copy of every method embedded
here except `compressToSize`, which only `src/src/otrimmer.py` has).

Modelling conventions:
  * Python `float` arithmetic is modelled over the exact rationals.  Every
    quantity involved is small (sizes in bytes, durations in seconds,
    millisecond offsets), far below the 2^53 range where IEEE doubles
    diverge from the exact values on the operations used here
    (multiplication by powers of two, one multiply by the literal 0.95,
    one division); the integer results extracted from them are far from
    the boundaries the rounding error could cross.
  * `subprocess.run` and the filesystem are an environment (`Env`): a
    total oracle answering existence/size queries and returning an exit
    status plus captured output for each spawned command.  Spawn failure
    (e.g. a missing binary raising inside `subprocess.run`) is not
    modelled; each command runs and yields a `ProcResult`.
  * Commands are recorded structurally (constructor per argv shape of the
    source) in the order they are spawned, so that theorems can speak
    about which external invocations a call performs.
  * Qt signal emissions are recorded in order as `Sig` values.  The
    human-readable size figures interpolated into some status strings
    (f-string `:.1f` formatting) are omitted from the recorded messages;
    no theorem depends on them.  Exception texts interpolated into error
    messages via `str(e)` are likewise omitted.
-/

/-- Result of one `subprocess.run(cmd, capture_output=True, text=True)`:
exit status and captured output streams. -/
structure ProcResult where
  returncode : Int
  stdout : String
  stderr : String
deriving Repr, DecidableEq

/-- The argv shapes the embedded methods spawn, with the data the source
interpolates into them.

  * `ffmpegTrim` : `['ffmpeg','-y','-i',input,'-ss',str(startSeconds),
    '-t',str(durationSeconds),'-c','copy',output]` (otrimmer.py 374-382);
    the `streamCopy` field records the `-c copy` flag.
  * `ffprobeJson` : `['ffprobe','-v','error','-select_streams','v:0',
    '-show_entries','format=duration','-of','json',path]`
    (otrimmer.py 459-466).
  * `ffmpegCompress` : `['ffmpeg','-y','-i',input,'-c:v','libx264',
    '-b:v',str(videoBitrate),'-preset','medium','-c:a','aac',
    '-b:a','128k',output]` (otrimmer.py 432-442 and 524-534); the fixed
    `libx264`/`medium`/`aac`/`128k` choices are part of the constructor.
  * `kdialogSave` : `['kdialog','--getsavefilename',defaultPath,filter]`
    (otrimmer.py 621-626). -/
inductive Cmd where
  | ffmpegTrim (input : String) (startSeconds durationSeconds : ℚ)
      (streamCopy : Bool) (output : String)
  | ffprobeJson (path : String)
  | ffmpegCompress (input : String) (videoBitrate : ℤ) (output : String)
  | kdialogSave (defaultPath : String) (filter : String)
deriving Repr, DecidableEq

/-- True exactly for the re-encode invocation of the encoder
(`ffmpeg -c:v libx264 ...`). -/
def Cmd.isReencode : Cmd → Bool
  | .ffmpegCompress _ _ _ => true
  | _ => false

/-- Qt signals the embedded methods emit, in emission order.  Carries the
message for the two string-typed signals. -/
inductive Sig where
  | startTimeChanged
  | endTimeChanged
  | durationChanged
  | trimCompleteChanged (msg : String)
  | errorOccurred (msg : String)
  | compressionStarted
  | compressionFinished
deriving Repr, DecidableEq

/-- Outcome of `float(self._get_video_info(path).get('duration', 0))`
(otrimmer.py 456-478 with the call sites 422-423 and 514-515), collapsed
into what the caller observes:

  * `val d` — `float(...)` returned `d`.  A probe that exits nonzero, a
    JSON parse error, or a missing `format.duration` key all give the
    dict default `0`, hence `val 0`.
  * `exn` — `float(...)` raised (non-numeric duration string), which the
    enclosing `try` of the caller catches. -/
inductive DurationFate where
  | val (d : ℚ)
  | exn
deriving Repr, DecidableEq

/-- The external world as a total oracle: the temp directory and pid used
to key temp file names, the home directory, `os.path.exists`,
`os.path.getsize` (bytes; only consulted on paths that exist), the
subprocess runner, and the observed outcome of the duration probe. -/
structure Env where
  tmpDir : String
  pid : Nat
  home : String
  pathExists : String → Bool
  getSize : String → Nat
  run : Cmd → ProcResult
  durationOf : String → DurationFate

/-- Mutable fields of the Python `VideoTrimmer` object
(otrimmer.py 282-291).  Offsets and duration are milliseconds.  The two
output fields start as `None` (`none`). -/
structure TrimmerState where
  start_time : Int
  end_time : Int
  duration : Int
  video_path : String
  trim_completed : Bool
  temp_output : Option String
  compressed_output : Option String
  max_size_mb : Int
deriving Repr, DecidableEq

/-- `VideoTrimmer.__init__` (otrimmer.py 282-291). -/
def initState : TrimmerState :=
  { start_time := 0, end_time := 0, duration := 0, video_path := ""
    trim_completed := false, temp_output := none, compressed_output := none
    max_size_mb := 50 }

/-- Result of running one method: the updated object state, the slot
return value, the emitted signals in order, and the spawned commands in
order. -/
structure Effect (α : Type) where
  state : TrimmerState
  ret : α
  signals : List Sig
  cmds : List Cmd
deriving Repr

/-- Python `int(q)` on a real value: truncation toward zero. -/
def pyTruncInt (q : ℚ) : ℤ :=
  if 0 ≤ q then ⌊q⌋ else ⌈q⌉

/-- `target_size_bytes = size_mb * 1024 * 1024 * 0.95`
(otrimmer.py 428 with `size_mb = self._max_size_mb`, and 520). -/
def targetSizeBytes (size_mb : ℚ) : ℚ :=
  size_mb * 1024 * 1024 * (19 / 20)

/-- `target_bitrate = int((target_size_bytes * 8) / duration_seconds)`
(otrimmer.py 429 and 521), in bits per second. -/
def targetBitrate (size_mb : ℚ) (duration_seconds : ℚ) : ℤ :=
  pyTruncInt (targetSizeBytes size_mb * 8 / duration_seconds)

/-- `os.path.join(tempfile.gettempdir(), f"trimmed_video_{os.getpid()}.mp4")`
(otrimmer.py 368). -/
def tempOutputPath (env : Env) : String :=
  env.tmpDir ++ "/trimmed_video_" ++ toString env.pid ++ ".mp4"

/-- `os.path.join(tempfile.gettempdir(), f"compressed_video_{os.getpid()}.mp4")`
(otrimmer.py 418 and 496). -/
def compressedOutputPath (env : Env) : String :=
  env.tmpDir ++ "/compressed_video_" ++ toString env.pid ++ ".mp4"

/-- The `startTime` property setter (otrimmer.py 297-302): when the new
value differs it stores it, clears `_trim_completed` and emits
`startTimeChanged`; otherwise nothing happens. -/
def setStartTime (s : TrimmerState) (value : Int) : TrimmerState × List Sig :=
  if s.start_time ≠ value then
    ({ s with start_time := value, trim_completed := false },
     [Sig.startTimeChanged])
  else (s, [])

/-- The `endTime` property setter (otrimmer.py 308-313), symmetric to
`setStartTime`. -/
def setEndTime (s : TrimmerState) (value : Int) : TrimmerState × List Sig :=
  if s.end_time ≠ value then
    ({ s with end_time := value, trim_completed := false },
     [Sig.endTimeChanged])
  else (s, [])

/-- The stream-copy trim command `createTrim` builds
(otrimmer.py 370-382): seek is `self._start_time / 1000` seconds and
duration is `(self._end_time - self._start_time) / 1000` seconds, output
is the pid-keyed temp path, codec mode is `-c copy`. -/
def trimCmd (env : Env) (s : TrimmerState) : Cmd :=
  Cmd.ffmpegTrim s.video_path ((s.start_time : ℚ) / 1000)
    (((s.end_time : ℚ) - (s.start_time : ℚ)) / 1000) true (tempOutputPath env)

/-- `VideoTrimmer.createTrim` (otrimmer.py 359-398).  An empty
`_video_path` is rejected before any invocation.  Otherwise the temp
output name is stored, the stream-copy trim runs, and on exit status 0
`_trim_completed` is set and a status signal is emitted (the source then
schedules `_check_and_compress` via `QTimer.singleShot(100, ...)`; that
deferred call is modelled as the separate step `checkAndCompress`); on a
nonzero exit status the stderr text is surfaced in `errorOccurred` and
the slot returns `False`. -/
def createTrim (env : Env) (s : TrimmerState) : Effect Bool :=
  if s.video_path = "" then
    { state := s, ret := false
      signals := [Sig.errorOccurred "No video loaded"], cmds := [] }
  else
    let s1 := { s with temp_output := some (tempOutputPath env) }
    let c := trimCmd env s
    let r := env.run c
    if r.returncode = 0 then
      { state := { s1 with trim_completed := true }, ret := true
        signals := [Sig.trimCompleteChanged
          "Trim created and ready to save or copy"]
        cmds := [c] }
    else
      { state := s1, ret := false
        signals := [Sig.errorOccurred ("Error trimming video: " ++ r.stderr)]
        cmds := [c] }

/-- `VideoTrimmer._check_and_compress` (otrimmer.py 400-454), the step
`createTrim` defers.  Branches, in source order:
  * `_temp_output` is `None`: `os.path.exists(None)` raises `TypeError`,
    the enclosing `except` reports and falls back to
    `self._temp_output`, i.e. `None`;
  * temp file missing: silent return;
  * size in MB (`bytes / (1024*1024)`) at most `_max_size_mb`:
    `_compressed_output := _temp_output`, status signal, no invocation;
  * oversized: status signal, `_compressed_output` is set to the
    pid-keyed compressed path *before* probing; then
      - probe raises in `float(...)`: `except` reports and falls back;
      - probed duration at most 0: `errorOccurred` and plain `return` —
        note `_compressed_output` is left at the compressed path;
      - otherwise the re-encode runs at `targetBitrate`; on exit 0 a
        status signal, on nonzero exit `errorOccurred` with the stderr
        text and fallback `_compressed_output := _temp_output`. -/
def checkAndCompress (env : Env) (s : TrimmerState) : Effect Unit :=
  match s.temp_output with
  | none =>
      { state := { s with compressed_output := none }, ret := ()
        signals := [Sig.errorOccurred "Error during compression: "]
        cmds := [] }
  | some temp =>
    if env.pathExists temp = false then
      { state := s, ret := (), signals := [], cmds := [] }
    else
      let bytes := env.getSize temp
      if (bytes : ℚ) / (1024 * 1024) ≤ (s.max_size_mb : ℚ) then
        { state := { s with compressed_output := some temp }, ret := ()
          signals := [Sig.trimCompleteChanged "Trim ready"], cmds := [] }
      else
        let comp := compressedOutputPath env
        let s1 := { s with compressed_output := some comp }
        let probe := Cmd.ffprobeJson temp
        match env.durationOf temp with
        | .exn =>
            { state := { s1 with compressed_output := some temp }, ret := ()
              signals := [Sig.trimCompleteChanged "Compressing video",
                Sig.errorOccurred "Error during compression: "]
              cmds := [probe] }
        | .val d =>
          if d ≤ 0 then
            { state := s1, ret := ()
              signals := [Sig.trimCompleteChanged "Compressing video",
                Sig.errorOccurred
                  "Could not determine video duration for compression"]
              cmds := [probe] }
          else
            let c := Cmd.ffmpegCompress temp
              (targetBitrate (s.max_size_mb : ℚ) d) comp
            let r := env.run c
            if r.returncode = 0 then
              { state := s1, ret := ()
                signals := [Sig.trimCompleteChanged "Compressing video",
                  Sig.trimCompleteChanged "Compressed video"]
                cmds := [probe, c] }
            else
              { state := { s1 with compressed_output := some temp }, ret := ()
                signals := [Sig.trimCompleteChanged "Compressing video",
                  Sig.errorOccurred
                    ("Error compressing video: " ++ r.stderr)]
                cmds := [probe, c] }

/-- `VideoTrimmer.compressToSize` (otrimmer.py 480-553, present only in
`src/src/otrimmer.py`); `size_mb` is the caller-supplied ceiling in MB.
Mirrors `checkAndCompress` with these differences from the source: the
`_trim_completed` guard and the missing-file guard return `False` with
`errorOccurred`; `_compressed_output` is set to the compressed path at
line 496, before the size check, and is overwritten with the input path
when the input already fits (lines 502-506, returning `True`);
`compressionStarted` / `compressionFinished` are emitted around the
actual compression attempt; the duration guard (lines 516-518) returns
`False` leaving `_compressed_output` at the compressed path. -/
def compressToSize (env : Env) (s : TrimmerState) (size_mb : Int) :
    Effect Bool :=
  if s.trim_completed = false then
    { state := s, ret := false
      signals := [Sig.errorOccurred "No trimmed video available"], cmds := [] }
  else
    match s.temp_output with
    | none =>
        { state := { s with compressed_output := none }, ret := false
          signals := [Sig.errorOccurred "Error during compression: ",
            Sig.compressionFinished]
          cmds := [] }
    | some input =>
      if env.pathExists input = false then
        { state := s, ret := false
          signals := [Sig.errorOccurred "Trimmed video file not found"]
          cmds := [] }
      else
        let comp := compressedOutputPath env
        let s1 := { s with compressed_output := some comp }
        let bytes := env.getSize input
        if (bytes : ℚ) / (1024 * 1024) ≤ (size_mb : ℚ) then
          { state := { s1 with compressed_output := some input }, ret := true
            signals := [Sig.trimCompleteChanged
              "Video already fits size requirement"]
            cmds := [] }
        else
          let probe := Cmd.ffprobeJson input
          match env.durationOf input with
          | .exn =>
              { state := { s1 with compressed_output := some input }
                ret := false
                signals := [Sig.compressionStarted,
                  Sig.trimCompleteChanged "Compressing video",
                  Sig.errorOccurred "Error during compression: ",
                  Sig.compressionFinished]
                cmds := [probe] }
          | .val d =>
            if d ≤ 0 then
              { state := s1, ret := false
                signals := [Sig.compressionStarted,
                  Sig.trimCompleteChanged "Compressing video",
                  Sig.errorOccurred
                    "Could not determine video duration for compression"]
                cmds := [probe] }
            else
              let c := Cmd.ffmpegCompress input
                (targetBitrate (size_mb : ℚ) d) comp
              let r := env.run c
              if r.returncode = 0 then
                { state := s1, ret := true
                  signals := [Sig.compressionStarted,
                    Sig.trimCompleteChanged "Compressing video",
                    Sig.trimCompleteChanged "Compressed video",
                    Sig.compressionFinished]
                  cmds := [probe, c] }
              else
                { state := { s1 with compressed_output := some input }
                  ret := false
                  signals := [Sig.compressionStarted,
                    Sig.trimCompleteChanged "Compressing video",
                    Sig.errorOccurred
                      ("Error compressing video: " ++ r.stderr),
                    Sig.compressionFinished]
                  cmds := [probe, c] }

/-- `self._compressed_output if self._compressed_output else
self._temp_output` (otrimmer.py 564 and 610).  Python truthiness: `None`
and the empty string both fall through to `_temp_output`. -/
def claimPath (s : TrimmerState) : Option String :=
  match s.compressed_output with
  | some p => if p = "" then s.temp_output else some p
  | none => s.temp_output

/-- `VideoTrimmer.copyTrimToClipboard` (otrimmer.py 555-579): rejects
when `_trim_completed` is clear; a `None` claim path makes
`os.path.exists` raise, caught by the `except`; a missing file is
reported; otherwise the slot emits a status signal and returns `True`
(the `wl-copy` helper itself runs later via `QTimer.singleShot` and is
outside this step). -/
def copyTrimToClipboard (env : Env) (s : TrimmerState) : Effect Bool :=
  if s.trim_completed = false then
    { state := s, ret := false
      signals := [Sig.errorOccurred "No trimmed video available"], cmds := [] }
  else
    match claimPath s with
    | none =>
        { state := s, ret := false
          signals := [Sig.errorOccurred "Error preparing video: "], cmds := [] }
    | some p =>
      if env.pathExists p = false then
        { state := s, ret := false
          signals := [Sig.errorOccurred "Trimmed video file not found"]
          cmds := [] }
      else
        { state := s, ret := true
          signals := [Sig.trimCompleteChanged "Video copied to clipboard"]
          cmds := [] }

/-- `os.path.basename`: the component after the last slash. -/
def pyBasename (p : String) : String :=
  (p.splitOn "/").getLastD ""

/-- The extension part of `os.path.splitext` on a basename: the suffix
from the last dot, unless every dot lies in the leading run of dots. -/
def splitextExt (b : String) : String :=
  let rest := b.toList.dropWhile (· = '.')
  if rest.contains '.' then
    "." ++ String.mk (rest.reverse.takeWhile (· ≠ '.')).reverse
  else ""

/-- `VideoTrimmer.saveTrimmingDialog` (otrimmer.py 601-645): rejects when
`_trim_completed` is clear; a `None` claim path raises into the
`except`; a missing file is reported; otherwise `kdialog` is spawned
with a default path under the home directory, and on exit status 0 with
nonempty stripped stdout the file is copied there (`shutil.copy2`, a
filesystem effect not tracked here) and the slot returns `True`; a
cancelled dialog returns `False` with no signal. -/
def saveTrimmingDialog (env : Env) (s : TrimmerState) : Effect Bool :=
  if s.trim_completed = false then
    { state := s, ret := false
      signals := [Sig.errorOccurred "No trimmed video available"], cmds := [] }
  else
    match claimPath s with
    | none =>
        { state := s, ret := false
          signals := [Sig.errorOccurred "Error saving file: "], cmds := [] }
    | some p =>
      if env.pathExists p = false then
        { state := s, ret := false
          signals := [Sig.errorOccurred "Trimmed video file not found"]
          cmds := [] }
      else
        let origName := pyBasename s.video_path
        let c := Cmd.kdialogSave (env.home ++ "/trimmed_" ++ origName)
          ("Video files (*" ++ splitextExt origName ++ ")")
        let r := env.run c
        if r.returncode = 0 ∧ r.stdout.trim ≠ "" then
          { state := s, ret := true
            signals := [Sig.trimCompleteChanged
              ("Saved to: " ++ r.stdout.trim)]
            cmds := [c] }
        else
          { state := s, ret := false, signals := [], cmds := [c] }

/-- A concrete world for exercising the duration-unknown branch: the
80MB trim at `/tmp/trimmed_video_1.mp4` is the only file that exists,
and the duration probe observes the dict default `0`. -/
def oversizedNoDurationEnv : Env :=
  { tmpDir := "/tmp", pid := 1, home := "/home/u"
    pathExists := fun p => p = "/tmp/trimmed_video_1.mp4"
    getSize := fun _ => 80 * 1024 * 1024
    run := fun _ => { returncode := 0, stdout := "", stderr := "" }
    durationOf := fun _ => DurationFate.val 0 }

/-- The trimmer right after a successful trim in the world above. -/
def oversizedNoDurationState : TrimmerState :=
  { initState with video_path := "/v/a.mp4", trim_completed := true
                   temp_output := some "/tmp/trimmed_video_1.mp4" }

/-- A concrete world for the exception branch: the oversized trim at
`/tmp/trimmed_video_2.mp4` exists and the probed duration string fails
to parse as a float. -/
def oversizedExnEnv : Env :=
  { tmpDir := "/tmp", pid := 2, home := "/home/u"
    pathExists := fun p => p = "/tmp/trimmed_video_2.mp4"
    getSize := fun _ => 80 * 1024 * 1024
    run := fun _ => { returncode := 0, stdout := "", stderr := "" }
    durationOf := fun _ => DurationFate.exn }

/-- The trimmer right after a successful trim in the exception world. -/
def oversizedExnState : TrimmerState :=
  { initState with video_path := "/v/a.mp4", trim_completed := true
                   temp_output := some "/tmp/trimmed_video_2.mp4" }

/-- Python `int()` agrees with the floor on nonnegative values. -/
lemma pyTruncInt_eq_floor {q : ℚ} (h : 0 ≤ q) : pyTruncInt q = ⌊q⌋ := by
  simp [pyTruncInt, h]

/-- The size test the source runs on megabytes
(`bytes / (1024*1024) <= ceiling_mb`) is the byte-level comparison the
spec states. -/
lemma sizeFits_iff (bytes : ℕ) (m : ℤ) :
    (bytes : ℚ) / (1024 * 1024) ≤ (m : ℚ) ↔
      (bytes : ℚ) ≤ (m : ℚ) * 1024 * 1024 := by
  rw [div_le_iff₀ (by norm_num : (0 : ℚ) < 1024 * 1024), ← mul_assoc]

/-- C2: an input already within the byte ceiling is returned as-is —
`compressToSize` answers `True`, designates the input path itself as the
final output, and spawns nothing (in particular no re-encode); the
deferred `_check_and_compress` step behaves the same way against the
fixed `_max_size_mb` ceiling. -/
theorem size_fit_returns_input_unmodified_when_small :
    (∀ (env : Env) (s : TrimmerState) (size_mb : Int) (p : String),
      s.trim_completed = true → s.temp_output = some p →
      env.pathExists p = true →
      (env.getSize p : ℚ) ≤ (size_mb : ℚ) * 1024 * 1024 →
      (compressToSize env s size_mb).ret = true ∧
      (compressToSize env s size_mb).state.compressed_output = some p ∧
      (compressToSize env s size_mb).cmds = []) ∧
    (∀ (env : Env) (s : TrimmerState) (p : String),
      s.temp_output = some p → env.pathExists p = true →
      (env.getSize p : ℚ) ≤ (s.max_size_mb : ℚ) * 1024 * 1024 →
      (checkAndCompress env s).state.compressed_output = some p ∧
      (checkAndCompress env s).cmds = []) := by
  constructor
  · intro env s size_mb p htc htemp hex hsmall
    have hfit := (sizeFits_iff (env.getSize p) size_mb).mpr hsmall
    simp [compressToSize, htc, htemp, hex, hfit]
  · intro env s p htemp hex hsmall
    have hfit := (sizeFits_iff (env.getSize p) s.max_size_mb).mpr hsmall
    simp [checkAndCompress, htemp, hex, hfit]

/-- Witness for C2 at a concrete state and environment. -/
theorem size_fit_returns_input_unmodified_when_small_witness :
    (compressToSize
      { tmpDir := "/tmp", pid := 7, home := "/home/u"
        pathExists := fun p => p = "/tmp/trimmed_video_7.mp4"
        getSize := fun _ => 10 * 1024 * 1024
        run := fun _ => { returncode := 0, stdout := "", stderr := "" }
        durationOf := fun _ => DurationFate.val 30 }
      { initState with trim_completed := true
                       temp_output := some "/tmp/trimmed_video_7.mp4" }
      50).ret = true := by
  refine (size_fit_returns_input_unmodified_when_small.1 _ _ 50
    "/tmp/trimmed_video_7.mp4" rfl rfl ?_ ?_).1
  · simp
  · norm_num

/-- C3: on an oversized input with known positive duration `d` and MB
ceiling `size_mb`, the re-encode is invoked (after the probe) with video
bitrate exactly `floor(maxSizeBytes * 0.95 * 8 / d)` bits per second,
`maxSizeBytes = size_mb * 1024 * 1024`. -/
theorem compress_bitrate_is_floor_formula :
    ∀ (env : Env) (s : TrimmerState) (size_mb : Int) (p : String) (d : ℚ),
      s.trim_completed = true → s.temp_output = some p →
      env.pathExists p = true →
      (size_mb : ℚ) * 1024 * 1024 < (env.getSize p : ℚ) →
      env.durationOf p = DurationFate.val d → 0 < d → 0 ≤ size_mb →
      (compressToSize env s size_mb).cmds =
        [Cmd.ffprobeJson p,
         Cmd.ffmpegCompress p
           ⌊(size_mb : ℚ) * 1024 * 1024 * (19 / 20) * 8 / d⌋
           (compressedOutputPath env)] := by
  intro env s size_mb p d htc htemp hex hbig hdur hd hm
  have hfit : ¬ ((env.getSize p : ℚ) / (1024 * 1024) ≤ (size_mb : ℚ)) := by
    rw [sizeFits_iff]
    exact not_le.mpr hbig
  have hdpos : ¬ (d ≤ 0) := not_le.mpr hd
  have hbr : targetBitrate (size_mb : ℚ) d =
      ⌊(size_mb : ℚ) * 1024 * 1024 * (19 / 20) * 8 / d⌋ := by
    have harg : (0 : ℚ) ≤ targetSizeBytes (size_mb : ℚ) * 8 / d := by
      have hs : (0 : ℚ) ≤ (size_mb : ℚ) := by exact_mod_cast hm
      have : (0 : ℚ) ≤ targetSizeBytes (size_mb : ℚ) := by
        rw [targetSizeBytes]; positivity
      positivity
    rw [targetBitrate, pyTruncInt_eq_floor harg, targetSizeBytes]
  rw [← hbr]
  simp only [compressToSize, htc, htemp, hex, hdur]
  simp [hfit, hdpos]
  split <;> rfl

/-- Witness for C3: ceiling 50MB, trimmed size 80MB, duration 30s. -/
theorem compress_bitrate_is_floor_formula_witness :
    (compressToSize
      { tmpDir := "/tmp", pid := 7, home := "/home/u"
        pathExists := fun p => p = "/tmp/trimmed_video_7.mp4"
        getSize := fun _ => 80 * 1024 * 1024
        run := fun _ => { returncode := 0, stdout := "", stderr := "" }
        durationOf := fun _ => DurationFate.val 30 }
      { initState with trim_completed := true
                       temp_output := some "/tmp/trimmed_video_7.mp4" }
      50).cmds =
    [Cmd.ffprobeJson "/tmp/trimmed_video_7.mp4",
     Cmd.ffmpegCompress "/tmp/trimmed_video_7.mp4"
       ⌊(50 : ℚ) * 1024 * 1024 * (19 / 20) * 8 / 30⌋
       "/tmp/compressed_video_7.mp4"] := by
  have h := compress_bitrate_is_floor_formula
    { tmpDir := "/tmp", pid := 7, home := "/home/u"
      pathExists := fun p => p = "/tmp/trimmed_video_7.mp4"
      getSize := fun _ => 80 * 1024 * 1024
      run := fun _ => { returncode := 0, stdout := "", stderr := "" }
      durationOf := fun _ => DurationFate.val 30 }
    { initState with trim_completed := true
                     temp_output := some "/tmp/trimmed_video_7.mp4" }
    50 "/tmp/trimmed_video_7.mp4" 30 rfl rfl (by simp) (by norm_num) rfl
    (by norm_num) (by norm_num)
  rw [h]
  rfl

/-- C4: on an oversized input whose probed duration comes back
unavailable (the dict default `0`) or nonpositive, both size-fit entry
points emit the duration error, spawn only the probe (so no encoder
re-encode), and `compressToSize` answers `False`. -/
theorem duration_unknown_fails_without_reencode :
    (∀ (env : Env) (s : TrimmerState) (size_mb : Int) (p : String) (d : ℚ),
      s.trim_completed = true → s.temp_output = some p →
      env.pathExists p = true →
      (size_mb : ℚ) * 1024 * 1024 < (env.getSize p : ℚ) →
      env.durationOf p = DurationFate.val d → d ≤ 0 →
      (compressToSize env s size_mb).ret = false ∧
      (compressToSize env s size_mb).cmds = [Cmd.ffprobeJson p] ∧
      Sig.errorOccurred "Could not determine video duration for compression"
        ∈ (compressToSize env s size_mb).signals) ∧
    (∀ (env : Env) (s : TrimmerState) (p : String) (d : ℚ),
      s.temp_output = some p → env.pathExists p = true →
      (s.max_size_mb : ℚ) * 1024 * 1024 < (env.getSize p : ℚ) →
      env.durationOf p = DurationFate.val d → d ≤ 0 →
      (checkAndCompress env s).cmds = [Cmd.ffprobeJson p] ∧
      Sig.errorOccurred "Could not determine video duration for compression"
        ∈ (checkAndCompress env s).signals) := by
  constructor
  · intro env s size_mb p d htc htemp hex hbig hdur hd
    have hfit : ¬ ((env.getSize p : ℚ) / (1024 * 1024) ≤ (size_mb : ℚ)) := by
      rw [sizeFits_iff]; exact not_le.mpr hbig
    simp [compressToSize, htc, htemp, hex, hfit, hdur, hd]
  · intro env s p d htemp hex hbig hdur hd
    have hfit : ¬ ((env.getSize p : ℚ) / (1024 * 1024) ≤ (s.max_size_mb : ℚ)) := by
      rw [sizeFits_iff]; exact not_le.mpr hbig
    simp [checkAndCompress, htemp, hex, hfit, hdur, hd]

/-- Witness for C4: 80MB trim, 50MB ceiling, probe came back 0. -/
theorem duration_unknown_fails_without_reencode_witness :
    (compressToSize
      { tmpDir := "/tmp", pid := 7, home := "/home/u"
        pathExists := fun p => p = "/tmp/trimmed_video_7.mp4"
        getSize := fun _ => 80 * 1024 * 1024
        run := fun _ => { returncode := 0, stdout := "", stderr := "" }
        durationOf := fun _ => DurationFate.val 0 }
      { initState with trim_completed := true
                       temp_output := some "/tmp/trimmed_video_7.mp4" }
      50).ret = false := by
  exact (duration_unknown_fails_without_reencode.1 _ _ 50
    "/tmp/trimmed_video_7.mp4" 0 rfl rfl (by simp) (by norm_num) rfl
    (by norm_num)).1

/-- C5: with a video loaded, `createTrim` fails — returning `False` with
the encoder stderr surfaced in the error signal — exactly when the trim
invocation exits nonzero; on exit status 0 it returns `True`, records
the temp path as the trim result and marks the trim completed. -/
theorem create_trim_fails_iff_nonzero_exit :
    ∀ (env : Env) (s : TrimmerState), s.video_path ≠ "" →
      (((env.run (trimCmd env s)).returncode ≠ 0) ↔
        ((createTrim env s).ret = false ∧
         (createTrim env s).signals =
           [Sig.errorOccurred
             ("Error trimming video: " ++ (env.run (trimCmd env s)).stderr)])) ∧
      ((env.run (trimCmd env s)).returncode = 0 →
        (createTrim env s).ret = true ∧
        (createTrim env s).state.temp_output = some (tempOutputPath env) ∧
        (createTrim env s).state.trim_completed = true) := by
  intro env s hpath
  by_cases hr : (env.run (trimCmd env s)).returncode = 0 <;>
    simp [createTrim, hpath, hr]

/-- Witness for C5: a concrete run where the encoder exits with status 1
and stderr text, so the slot fails and surfaces it. -/
theorem create_trim_fails_iff_nonzero_exit_witness :
    (createTrim
      { tmpDir := "/tmp", pid := 7, home := "/home/u"
        pathExists := fun _ => true, getSize := fun _ => 0
        run := fun _ => { returncode := 1, stdout := "", stderr := "boom" }
        durationOf := fun _ => DurationFate.val 30 }
      { initState with video_path := "/v/a.mp4" }).ret = false := by
  exact ((create_trim_fails_iff_nonzero_exit
    { tmpDir := "/tmp", pid := 7, home := "/home/u"
      pathExists := fun _ => true, getSize := fun _ => 0
      run := fun _ => { returncode := 1, stdout := "", stderr := "boom" }
      durationOf := fun _ => DurationFate.val 30 }
    { initState with video_path := "/v/a.mp4" }
    (by simp)).1.mp (by simp)).1

/-- C6: with a video loaded, `createTrim` spawns exactly one encoder
invocation, in stream-copy mode, seeking to `startMs / 1000` seconds and
limited to `(endMs - startMs) / 1000` seconds; in particular the range
[10000, 40000) gives a duration argument of 30 seconds. -/
theorem trim_args_are_ms_over_1000 :
    ∀ (env : Env) (s : TrimmerState), s.video_path ≠ "" →
      ((createTrim env s).cmds =
        [Cmd.ffmpegTrim s.video_path ((s.start_time : ℚ) / 1000)
          (((s.end_time : ℚ) - (s.start_time : ℚ)) / 1000) true
          (tempOutputPath env)]) ∧
      (s.start_time = 10000 → s.end_time = 40000 →
        (createTrim env s).cmds =
          [Cmd.ffmpegTrim s.video_path 10 30 true (tempOutputPath env)]) := by
  intro env s hpath
  constructor
  · simp only [createTrim, trimCmd]
    simp [hpath]
    split <;> rfl
  · intro h1 h2
    simp only [createTrim, trimCmd]
    simp [hpath, h1, h2]
    norm_num
    split <;> rfl

/-- Witness for C6 on the scenario state: range [10000, 40000). -/
theorem trim_args_are_ms_over_1000_witness :
    (createTrim
      { tmpDir := "/tmp", pid := 7, home := "/home/u"
        pathExists := fun _ => true, getSize := fun _ => 0
        run := fun _ => { returncode := 0, stdout := "", stderr := "" }
        durationOf := fun _ => DurationFate.val 30 }
      { initState with video_path := "/v/a.mp4", start_time := 10000
                       end_time := 40000 }).cmds =
    [Cmd.ffmpegTrim "/v/a.mp4" 10 30 true "/tmp/trimmed_video_7.mp4"] := by
  exact (trim_args_are_ms_over_1000
    { tmpDir := "/tmp", pid := 7, home := "/home/u"
      pathExists := fun _ => true, getSize := fun _ => 0
      run := fun _ => { returncode := 0, stdout := "", stderr := "" }
      durationOf := fun _ => DurationFate.val 30 }
    { initState with video_path := "/v/a.mp4", start_time := 10000
                     end_time := 40000 }
    (by simp)).2 rfl rfl

/-- C9: `createTrim` checks no range precondition: for any loaded video
and any offsets, the encoder invocation happens with duration argument
`(endMs - startMs) / 1000`, which is nonpositive when `endMs ≤ startMs`;
only an empty video path is rejected before invocation. -/
theorem trim_has_no_range_guard :
    (∀ (env : Env) (s : TrimmerState), s.video_path ≠ "" →
      (createTrim env s).cmds = [trimCmd env s] ∧
      (s.end_time ≤ s.start_time →
        ((s.end_time : ℚ) - (s.start_time : ℚ)) / 1000 ≤ 0)) ∧
    (∀ (env : Env) (s : TrimmerState), s.video_path = "" →
      (createTrim env s).cmds = [] ∧ (createTrim env s).ret = false) := by
  constructor
  · intro env s hpath
    constructor
    · simp only [createTrim]
      simp [hpath]
      split <;> rfl
    · intro hle
      have : ((s.end_time : ℚ) - (s.start_time : ℚ)) ≤ 0 := by
        have : (s.end_time : ℚ) ≤ (s.start_time : ℚ) := by exact_mod_cast hle
        linarith
      linarith
  · intro env s hpath
    simp [createTrim, hpath]

/-- Witness for C9: an inverted range [40000, 10000) still spawns the
trim, with duration argument -30. -/
theorem trim_has_no_range_guard_witness :
    (createTrim
      { tmpDir := "/tmp", pid := 7, home := "/home/u"
        pathExists := fun _ => true, getSize := fun _ => 0
        run := fun _ => { returncode := 0, stdout := "", stderr := "" }
        durationOf := fun _ => DurationFate.val 30 }
      { initState with video_path := "/v/a.mp4", start_time := 40000
                       end_time := 10000 }).cmds =
    [trimCmd
      { tmpDir := "/tmp", pid := 7, home := "/home/u"
        pathExists := fun _ => true, getSize := fun _ => 0
        run := fun _ => { returncode := 0, stdout := "", stderr := "" }
        durationOf := fun _ => DurationFate.val 30 }
      { initState with video_path := "/v/a.mp4", start_time := 40000
                       end_time := 10000 }] := by
  exact (trim_has_no_range_guard.1
    { tmpDir := "/tmp", pid := 7, home := "/home/u"
      pathExists := fun _ => true, getSize := fun _ => 0
      run := fun _ => { returncode := 0, stdout := "", stderr := "" }
      durationOf := fun _ => DurationFate.val 30 }
    { initState with video_path := "/v/a.mp4", start_time := 40000
                     end_time := 10000 }
    (by simp)).1

/-- C7: the computed target bitrate is antitone in the duration for a
fixed nonnegative size ceiling, and monotone in the size ceiling for a
fixed positive duration. -/
theorem target_bitrate_monotone :
    (∀ (m d₁ d₂ : ℚ), 0 ≤ m → 0 < d₁ → d₁ ≤ d₂ →
      targetBitrate m d₂ ≤ targetBitrate m d₁) ∧
    (∀ (m₁ m₂ d : ℚ), 0 ≤ m₁ → m₁ ≤ m₂ → 0 < d →
      targetBitrate m₁ d ≤ targetBitrate m₂ d) := by
  have hts : ∀ m : ℚ, 0 ≤ m → 0 ≤ targetSizeBytes m := by
    intro m hm
    rw [targetSizeBytes]
    positivity
  constructor
  · intro m d₁ d₂ hm hd₁ hle
    have hd₂ : 0 < d₂ := lt_of_lt_of_le hd₁ hle
    have h₁ : (0 : ℚ) ≤ targetSizeBytes m * 8 / d₁ := by
      have := hts m hm; positivity
    have h₂ : (0 : ℚ) ≤ targetSizeBytes m * 8 / d₂ := by
      have := hts m hm; positivity
    rw [targetBitrate, targetBitrate, pyTruncInt_eq_floor h₁,
      pyTruncInt_eq_floor h₂]
    apply Int.floor_le_floor
    gcongr
    · exact mul_nonneg (hts m hm) (by norm_num)
  · intro m₁ m₂ d hm₁ hle hd
    have h₁ : (0 : ℚ) ≤ targetSizeBytes m₁ * 8 / d := by
      have := hts m₁ hm₁; positivity
    have h₂ : (0 : ℚ) ≤ targetSizeBytes m₂ * 8 / d := by
      have := hts m₂ (le_trans hm₁ hle); positivity
    rw [targetBitrate, targetBitrate, pyTruncInt_eq_floor h₁,
      pyTruncInt_eq_floor h₂]
    apply Int.floor_le_floor
    have hmono : targetSizeBytes m₁ ≤ targetSizeBytes m₂ := by
      rw [targetSizeBytes, targetSizeBytes]
      gcongr
    gcongr

/-- Witness for C7: doubling the duration does not raise the bitrate and
shrinking the ceiling does not raise it. -/
theorem target_bitrate_monotone_witness :
    targetBitrate 50 60 ≤ targetBitrate 50 30 ∧
    targetBitrate 10 30 ≤ targetBitrate 50 30 := by
  exact ⟨target_bitrate_monotone.1 50 30 60 (by norm_num) (by norm_num)
      (by norm_num),
    target_bitrate_monotone.2 10 50 30 (by norm_num) (by norm_num)
      (by norm_num)⟩

/-- C8 counterexample: at ceiling 50MB and duration 30s the computed
bitrate is not the 13264877 bits per second the claim names. -/
theorem bitrate_scenario_value_cex :
    targetBitrate 50 30 ≠ 13264877 := by
  rw [targetBitrate, targetSizeBytes, pyTruncInt]
  norm_num

/-- C8 amended: at ceiling 50MB (50*1024*1024 bytes) and duration 30s
the computed target bitrate equals
floor(50*1024*1024*0.95*8/30) = 13281962 bits per second. -/
theorem bitrate_scenario_value :
    targetBitrate 50 30 = ⌊(50 * 1024 * 1024 * (19 / 20) * 8 / 30 : ℚ)⌋ ∧
    targetBitrate 50 30 = 13281962 := by
  constructor
  · rw [targetBitrate, targetSizeBytes, pyTruncInt]
    norm_num
  · rw [targetBitrate, targetSizeBytes, pyTruncInt]
    norm_num

/-- C10: changing either offset to a new value clears `_trim_completed`
and emits the change signal; re-setting the current value changes
nothing and emits nothing; and with `_trim_completed` clear both claim
slots (clipboard and save) reject with `False`. -/
theorem offset_change_invalidates_trim :
    (∀ (s : TrimmerState) (v : Int), v ≠ s.start_time →
      (setStartTime s v).1.trim_completed = false ∧
      (setStartTime s v).2 = [Sig.startTimeChanged]) ∧
    (∀ (s : TrimmerState) (v : Int), v = s.start_time →
      setStartTime s v = (s, [])) ∧
    (∀ (s : TrimmerState) (v : Int), v ≠ s.end_time →
      (setEndTime s v).1.trim_completed = false ∧
      (setEndTime s v).2 = [Sig.endTimeChanged]) ∧
    (∀ (s : TrimmerState) (v : Int), v = s.end_time →
      setEndTime s v = (s, [])) ∧
    (∀ (env : Env) (s : TrimmerState), s.trim_completed = false →
      (copyTrimToClipboard env s).ret = false ∧
      (copyTrimToClipboard env s).signals =
        [Sig.errorOccurred "No trimmed video available"] ∧
      (saveTrimmingDialog env s).ret = false ∧
      (saveTrimmingDialog env s).signals =
        [Sig.errorOccurred "No trimmed video available"]) := by
  refine ⟨?_, ?_, ?_, ?_, ?_⟩
  · intro s v hv
    have hv' : s.start_time ≠ v := Ne.symm hv
    simp [setStartTime, hv']
  · intro s v hv
    simp [setStartTime, hv]
  · intro s v hv
    have hv' : s.end_time ≠ v := Ne.symm hv
    simp [setEndTime, hv']
  · intro s v hv
    simp [setEndTime, hv]
  · intro env s htc
    simp [copyTrimToClipboard, saveTrimmingDialog, htc]

/-- Witness for C10: moving the start offset away from 0 on a completed
trim clears the flag, and the clipboard claim then rejects. -/
theorem offset_change_invalidates_trim_witness :
    (setStartTime { initState with trim_completed := true } 5).1.trim_completed
      = false ∧
    setEndTime { initState with trim_completed := true } 0 =
      ({ initState with trim_completed := true }, []) ∧
    (copyTrimToClipboard
      { tmpDir := "/tmp", pid := 7, home := "/home/u"
        pathExists := fun _ => true, getSize := fun _ => 0
        run := fun _ => { returncode := 0, stdout := "", stderr := "" }
        durationOf := fun _ => DurationFate.val 30 }
      initState).ret = false := by
  refine ⟨(offset_change_invalidates_trim.1 _ 5 (by decide)).1,
    offset_change_invalidates_trim.2.2.2.1 _ 0 (by decide), ?_⟩
  exact (offset_change_invalidates_trim.2.2.2.2
    { tmpDir := "/tmp", pid := 7, home := "/home/u"
      pathExists := fun _ => true, getSize := fun _ => 0
      run := fun _ => { returncode := 0, stdout := "", stderr := "" }
      durationOf := fun _ => DurationFate.val 30 }
    initState rfl).1

/-- C1 counterexample: with a valid oversized trim on disk, the
duration-unknown compression failure does NOT leave the trimmed file as
the claimable output — `_compressed_output` is left pointing at the
never-created compressed path (set at otrimmer.py 418 before the probe),
that path does not exist, and both claim slots consequently fail. -/
theorem compression_failure_fallback_cex :
    (checkAndCompress oversizedNoDurationEnv
        oversizedNoDurationState).state.compressed_output =
      some "/tmp/compressed_video_1.mp4" ∧
    (checkAndCompress oversizedNoDurationEnv
        oversizedNoDurationState).state.temp_output =
      some "/tmp/trimmed_video_1.mp4" ∧
    claimPath (checkAndCompress oversizedNoDurationEnv
        oversizedNoDurationState).state =
      some "/tmp/compressed_video_1.mp4" ∧
    oversizedNoDurationEnv.pathExists "/tmp/compressed_video_1.mp4" = false ∧
    (copyTrimToClipboard oversizedNoDurationEnv
      (checkAndCompress oversizedNoDurationEnv
        oversizedNoDurationState).state).ret = false ∧
    (saveTrimmingDialog oversizedNoDurationEnv
      (checkAndCompress oversizedNoDurationEnv
        oversizedNoDurationState).state).ret = false := by
  have hstep : (checkAndCompress oversizedNoDurationEnv
      oversizedNoDurationState).state =
      { oversizedNoDurationState with
          compressed_output := some "/tmp/compressed_video_1.mp4" } := by
    norm_num [checkAndCompress, oversizedNoDurationEnv, oversizedNoDurationState,
      initState, compressedOutputPath]
    rfl
  rw [hstep]
  refine ⟨rfl, rfl, rfl, by simp [oversizedNoDurationEnv], ?_, ?_⟩ <;>
    simp [copyTrimToClipboard, saveTrimmingDialog, claimPath,
      oversizedNoDurationEnv, oversizedNoDurationState, initState]

/-- C1 amended: once a valid (oversized) trim exists, a compression
failure by nonzero encoder exit or by an exception raised during the
compression step leaves the uncompressed trim as the final claimable
output, and that path exists; the duration-unknown failure, by contrast,
leaves the claimable path dangling (see the counterexample). -/
theorem compression_failure_fallback :
    ∀ (env : Env) (s : TrimmerState) (p : String),
      s.temp_output = some p → p ≠ "" → env.pathExists p = true →
      (s.max_size_mb : ℚ) * 1024 * 1024 < (env.getSize p : ℚ) →
      (env.durationOf p = DurationFate.exn ∨
        (∃ d : ℚ, env.durationOf p = DurationFate.val d ∧ 0 < d ∧
          (env.run (Cmd.ffmpegCompress p
            (targetBitrate (s.max_size_mb : ℚ) d)
            (compressedOutputPath env))).returncode ≠ 0)) →
      (checkAndCompress env s).state.compressed_output = some p ∧
      claimPath (checkAndCompress env s).state = some p ∧
      env.pathExists p = true := by
  intro env s p htemp hne hex hbig hfail
  have hfit : ¬ ((env.getSize p : ℚ) / (1024 * 1024) ≤ (s.max_size_mb : ℚ)) := by
    rw [sizeFits_iff]
    exact not_le.mpr hbig
  rcases hfail with hexn | ⟨d, hdur, hd, hrc⟩
  · simp [checkAndCompress, htemp, hex, hfit, hexn, claimPath, hne]
  · have hdle : ¬ (d ≤ 0) := not_le.mpr hd
    simp [checkAndCompress, htemp, hex, hfit, hdur, hdle, hrc, claimPath, hne]

/-- Witness for C1 (amended) in the exception world: the claimable
output is the trim itself and it exists. -/
theorem compression_failure_fallback_witness :
    (checkAndCompress oversizedExnEnv oversizedExnState).state.compressed_output
      = some "/tmp/trimmed_video_2.mp4" ∧
    oversizedExnEnv.pathExists "/tmp/trimmed_video_2.mp4" = true := by
  have h := compression_failure_fallback oversizedExnEnv oversizedExnState
    "/tmp/trimmed_video_2.mp4" rfl (by decide)
    (by simp [oversizedExnEnv])
    (by simp [oversizedExnEnv, oversizedExnState, initState]; norm_num)
    (Or.inl rfl)
  exact ⟨h.1, h.2.2⟩
